import Mathlib

/-!
# Page controller of the interactive résumé (`src/js/script.js`)

A shallow embedding of the script's event handlers.  Every handler is a pure
function on the part of the document it reads and writes.  JavaScript numbers
that the script produces with `parseInt` are mathematical integers (`Int`),
with `none` standing for `NaN`; the embedding is exact for magnitudes up to
`2 ^ 53`, beyond which a browser rounds to the nearest double.
-/

namespace CvScript

/-! ## JavaScript values -/

/-- A number produced by `parseInt`: `none` is `NaN`. -/
abbrev JSNumber := Option Int

/-- The values the script manipulates: `undefined` (also standing for `null`),
strings, and numbers. -/
inductive JSValue where
  | undefined : JSValue
  | str : String → JSValue
  | num : JSNumber → JSValue
  deriving DecidableEq, Repr

/-- JavaScript truthiness: `undefined`, the empty string, `0` and `NaN` are falsy. -/
def JSValue.truthy : JSValue → Bool
  | .undefined => false
  | .str s => !(s.data.isEmpty)
  | .num none => false
  | .num (some n) => n != 0

/-- The operator `a || b`. -/
def JSValue.or (a b : JSValue) : JSValue :=
  if a.truthy then a else b

/-- Decimal digits of a natural number, most significant first. -/
def natDigits : Nat → Nat → List Char
  | 0, _ => []
  | fuel + 1, n =>
    if n < 10 then [Char.ofNat (48 + n)]
    else natDigits fuel (n / 10) ++ [Char.ofNat (48 + n % 10)]

/-- The string a number converts to (`String(n)`). -/
def numberToString : JSNumber → String
  | none => "NaN"
  | some (Int.ofNat n) => ⟨natDigits (n + 1) n⟩
  | some (Int.negSucc n) => ⟨'-' :: natDigits (n + 2) (n + 1)⟩

/-- The conversion `String(v)`, also applied by `v + '%'` and by `parseInt`. -/
def JSValue.toStr : JSValue → String
  | .undefined => "undefined"
  | .str s => s
  | .num n => numberToString n

/-- White space skipped by `parseInt` at the start of its input. -/
def isStrWhiteSpace (c : Char) : Bool :=
  let n := c.toNat
  n == 0x09 || n == 0x0A || n == 0x0B || n == 0x0C || n == 0x0D || n == 0x20 ||
  n == 0xA0 || n == 0x1680 || (0x2000 ≤ n && n ≤ 0x200A) || n == 0x2028 ||
  n == 0x2029 || n == 0x202F || n == 0x205F || n == 0x3000 || n == 0xFEFF

/-- Value of a character as a digit (`0-9`, `a-z`, `A-Z`), if it is one. -/
def digitValue (c : Char) : Option Nat :=
  let n := c.toNat
  if 48 ≤ n ∧ n ≤ 57 then some (n - 48)
  else if 97 ≤ n ∧ n ≤ 122 then some (n - 87)
  else if 65 ≤ n ∧ n ≤ 90 then some (n - 55)
  else none

/-- The longest prefix of digits of the given radix, as digit values. -/
def takeDigits (radix : Nat) : List Char → List Nat
  | [] => []
  | c :: cs =>
    match digitValue c with
    | some d => if d < radix then d :: takeDigits radix cs else []
    | none => []

/-- The sign prefix: whether the number is negative, and the rest of the input. -/
def stripSign : List Char → Bool × List Char
  | '-' :: cs => (true, cs)
  | '+' :: cs => (false, cs)
  | cs => (false, cs)

/-- The radix prefix: `0x` or `0X` selects radix 16, otherwise radix 10. -/
def stripRadixPrefix : List Char → Nat × List Char
  | '0' :: 'x' :: cs => (16, cs)
  | '0' :: 'X' :: cs => (16, cs)
  | cs => (10, cs)

/-- The function `parseInt(s)` on the characters of its input, without a radix argument. -/
def parseIntChars (cs : List Char) : JSNumber :=
  let signed := stripSign (cs.dropWhile isStrWhiteSpace)
  let body := stripRadixPrefix signed.2
  let ds := takeDigits body.1 body.2
  if ds.isEmpty then none
  else
    let m : Int := Int.ofNat (ds.foldl (fun acc d => acc * body.1 + d) 0)
    some (if signed.1 then -m else m)

/-- The function `parseInt(v)`: the argument is first converted to a string. -/
def parseInt (v : JSValue) : JSNumber :=
  parseIntChars v.toStr.data

/-- The function `Math.min(100, x)`: `NaN` propagates. -/
def mathMin100 : JSNumber → JSNumber
  | none => none
  | some n => some (min 100 n)

/-- The value of a `data-*` attribute read through `dataset`: `undefined` when absent. -/
def datasetValue : Option String → JSValue
  | none => .undefined
  | some s => .str s

/-! ## Skill bars (`script.js` lines 68-95) -/

/-- A `.skill-bar` element: its `data-value` attribute, the inline `style.width`
of its first `.skill-bar-fill` descendant (`none` when it has no such
descendant), and its `aria-valuenow` attribute.  The width is the string the
script assigns to `style.width`. -/
structure SkillBar where
  dataValue : Option String
  fillWidth : Option String
  ariaValuenow : Option String
  deriving DecidableEq, Repr

/-- An `IntersectionObserverEntry`: the index of its target and its `isIntersecting` flag. -/
structure Entry where
  target : Nat
  isIntersecting : Bool
  deriving DecidableEq, Repr

/-- The skill bars, the targets the observer `io` currently observes, and the
callbacks passed to `requestAnimationFrame` that have not run yet (which bar's
fill receives which width). -/
structure BarsPage where
  bars : List SkillBar
  observed : List Nat
  frames : List (Nat × String)
  deriving DecidableEq, Repr

/-- Line 76: `Math.min(100, parseInt(bar.dataset.value || 0))`. -/
def resolvedValue (dataValue : Option String) : JSNumber :=
  mathMin100 (parseInt ((datasetValue dataValue).or (.num (some 0))))

/-- Lines 73-82: the body of the observer callback for one entry. -/
def skillBarEntry (s : BarsPage) (entry : Entry) : BarsPage :=
  if entry.isIntersecting then
    match s.bars.get? entry.target with
    | none => s
    | some bar =>
      let value := resolvedValue bar.dataValue
      let s1 : BarsPage :=
        match bar.fillWidth with
        | some _ =>
          { s with
            frames := s.frames ++ [(entry.target, (JSValue.num value).toStr ++ "%")]
            bars := s.bars.set entry.target
              { bar with ariaValuenow := some (JSValue.num value).toStr } }
        | none => s
      { s1 with observed := s1.observed.filter (fun t => t != entry.target) }
  else s

/-- Lines 71-84: the observer callback, `entries.forEach(...)`. -/
def skillBarCallback (s : BarsPage) (entries : List Entry) : BarsPage :=
  entries.foldl skillBarEntry s

/-- One pending animation-frame callback (line 78): `fill.style.width = value + '%'`. -/
def runFrame (bars : List SkillBar) (f : Nat × String) : List SkillBar :=
  match bars.get? f.1 with
  | none => bars
  | some bar => bars.set f.1 { bar with fillWidth := bar.fillWidth.map (fun _ => f.2) }

/-- The next paint frame: every pending callback runs, in the order it was requested. -/
def animationFrame (s : BarsPage) : BarsPage :=
  { s with bars := s.frames.foldl runFrame s.bars, frames := [] }

/-- The browser delivering a batch of entries to `io`: it reports only targets
that are observed when the batch is delivered, then runs the callback. -/
def deliver (s : BarsPage) (entries : List Entry) : BarsPage :=
  skillBarCallback s (entries.filter (fun e => decide (e.target ∈ s.observed)))

/-- Lines 89-94: the fallback body for one bar. -/
def fallbackBar (b : SkillBar) : SkillBar :=
  let value := (datasetValue b.dataValue).or (.num (some 0))
  { b with
    fillWidth := b.fillWidth.map (fun _ => value.toStr ++ "%")
    ariaValuenow := some value.toStr }

/-- Lines 69-95: startup.  With `IntersectionObserver` available and at least
one bar every bar is observed; otherwise the fallback runs on every bar. -/
def skillBarsStartup (hasIntersectionObserver : Bool) (bars : List SkillBar) : BarsPage :=
  if hasIntersectionObserver && bars.length != 0 then
    { bars := bars, observed := List.range bars.length, frames := [] }
  else
    { bars := bars.map fallbackBar, observed := [], frames := [] }

/-! ## Class lists -/

/-- The `classList` of an element: its class names in order. -/
abbrev ClassList := List String

/-- The method `classList.add(c)`. -/
def ClassList.add (l : ClassList) (c : String) : ClassList :=
  if c ∈ l then l else l ++ [c]

/-- The method `classList.remove(c)`. -/
def ClassList.remove (l : ClassList) (c : String) : ClassList :=
  l.filter (fun x => x != c)

/-- The method `classList.toggle(c, force)` with its second argument given. -/
def ClassList.toggleForce (l : ClassList) (c : String) (force : Bool) : ClassList :=
  if force then l.add c else l.remove c

/-- The method `classList.contains(c)`. -/
def ClassList.has (l : ClassList) (c : String) : Bool :=
  decide (c ∈ l)

/-! ## Card reveal (`script.js` lines 185-196) -/

/-- The `.card` elements (their class lists), the targets `cardIo` observes, and
the targets on which the callback has called `classList.add('in-view')`, one
item per call. -/
structure CardsPage where
  cards : List ClassList
  observed : List Nat
  addCalls : List Nat
  deriving DecidableEq, Repr

/-- Line 190: the body of the card observer callback for one entry. -/
def cardEntry (s : CardsPage) (en : Entry) : CardsPage :=
  if en.isIntersecting then
    match s.cards.get? en.target with
    | none => s
    | some card =>
      { s with
        cards := s.cards.set en.target (card.add "in-view")
        addCalls := s.addCalls ++ [en.target] }
  else s

/-- Lines 188-192: the card observer callback. -/
def cardCallback (s : CardsPage) (entries : List Entry) : CardsPage :=
  entries.foldl cardEntry s

/-- The browser delivering a batch of entries to `cardIo`: only observed targets are reported. -/
def deliverCards (s : CardsPage) (entries : List Entry) : CardsPage :=
  cardCallback s (entries.filter (fun e => decide (e.target ∈ s.observed)))

/-- Lines 186-196: startup of the card reveal. -/
def cardsStartup (hasIntersectionObserver : Bool) (cards : List ClassList) : CardsPage :=
  if hasIntersectionObserver && cards.length != 0 then
    { cards := cards, observed := List.range cards.length, addCalls := [] }
  else
    { cards := cards.map (fun c => c.add "in-view"), observed := [], addCalls := [] }

/-- Whether the card of index `i` carries the `in-view` marker. -/
def CardsPage.revealed (s : CardsPage) (i : Nat) : Bool :=
  match s.cards.get? i with
  | none => false
  | some card => card.has "in-view"

/-! ## Theme (`script.js` lines 19-40) -/

/-- The state the theme code reads and writes: the `localStorage` entry
`cv_theme`, the variable `savedTheme`, the `data-theme` attribute of the
document element, whether the `#themeToggle` control exists, and its
`aria-pressed` attribute. -/
structure ThemePage where
  storage : Option String
  savedTheme : JSValue
  dataTheme : Option String
  hasToggle : Bool
  ariaPressed : Option String
  deriving DecidableEq, Repr

/-- Lines 23-31: `applyTheme(theme)`. -/
def applyTheme (s : ThemePage) (theme : JSValue) : ThemePage :=
  if theme = .str "dark" then
    { s with
      dataTheme := some "dark"
      ariaPressed := if s.hasToggle then some "true" else s.ariaPressed }
  else
    { s with
      dataTheme := none
      ariaPressed := if s.hasToggle then some "false" else s.ariaPressed }

/-- Line 33: the initial value of `savedTheme`.  The first argument is the
stored entry (`none` when `getItem` returns `null`); the second is `none` when
`window.matchMedia` is unavailable and otherwise the `matches` flag of the
query `(prefers-color-scheme: dark)`. -/
def initialTheme (stored : Option String) (matchMedia : Option Bool) : JSValue :=
  (datasetValue stored).or (.str (if matchMedia = some true then "dark" else "light"))

/-- Lines 33-34: startup of the theme code on a fresh document. -/
def themeStartup (stored : Option String) (matchMedia : Option Bool) (hasToggle : Bool)
    (ariaPressed : Option String) (dataTheme : Option String) : ThemePage :=
  applyTheme
    { storage := stored, savedTheme := initialTheme stored matchMedia,
      dataTheme := dataTheme, hasToggle := hasToggle, ariaPressed := ariaPressed }
    (initialTheme stored matchMedia)

/-- Lines 36-40: the click handler of the theme toggle. -/
def themeToggleClick (s : ThemePage) : ThemePage :=
  let savedTheme : String := if s.storage = some "dark" then "light" else "dark"
  applyTheme { s with savedTheme := .str savedTheme, storage := some savedTheme } (.str savedTheme)

/-- The theme the document shows: dark exactly when `data-theme="dark"` is set. -/
def appliedTheme (s : ThemePage) : String :=
  if s.dataTheme = some "dark" then "dark" else "light"

/-! ## Smooth anchors (`script.js` lines 42-51) -/

/-- What `scrollToHashWithOffset` reads: for a selector, the `top` of the
bounding rectangle of the first matching element (`none` when nothing
matches), `window.pageYOffset`, and the computed value of the custom property
`--header-offset` (the empty string when it is not set).  Offsets are CSS
pixels, taken as integers. -/
structure ScrollPage where
  querySelector : String → Option Int
  pageYOffset : Int
  headerOffsetVar : String

/-- Line 47: `parseInt(...getPropertyValue('--header-offset')) || 24`. -/
def headerOffset (cssValue : String) : JSValue :=
  (JSValue.num (parseInt (.str cssValue))).or (.num (some 24))

/-- Lines 43-51: `scrollToHashWithOffset(hash)`; the result is the `top` passed
to `window.scrollTo`, or `none` when the function returns without scrolling.
The header offset is always a number (`|| 24` replaces `NaN`), so the last
branch is never taken. -/
def scrollToHashWithOffset (p : ScrollPage) (hash : JSValue) : Option Int :=
  if !hash.truthy then none
  else
    match p.querySelector hash.toStr with
    | none => none
    | some rectTop =>
      match headerOffset p.headerOffsetVar with
      | .num (some h) => some (p.pageYOffset + rectTop - h)
      | _ => none

/-! ## Skill filters (`script.js` lines 97-113) -/

/-- A `.skill-filter` control: its class list and its `data-filter` attribute. -/
structure FilterControl where
  classList : ClassList
  dataFilter : Option String
  deriving DecidableEq, Repr

/-- A `.skill-block` element: its `data-category` attribute and its inline `style.display`. -/
structure SkillBlock where
  dataCategory : Option String
  display : String
  deriving DecidableEq, Repr

/-- The filter controls and the skill blocks. -/
structure FiltersPage where
  filters : List FilterControl
  skillBlocks : List SkillBlock
  deriving DecidableEq, Repr

/-- Lines 101-110: `setActiveFilter(filter)`. -/
def setActiveFilter (s : FiltersPage) (filter : JSValue) : FiltersPage :=
  { filters := s.filters.map (fun btn =>
      { btn with classList :=
          btn.classList.toggleForce "active" (decide (datasetValue btn.dataFilter = filter)) })
    skillBlocks := s.skillBlocks.map (fun block =>
      if filter = .str "all" ∨ datasetValue block.dataCategory = filter then
        { block with display := "" }
      else
        { block with display := "none" }) }

/-- Whether a filter control carries the `active` marker. -/
def FilterControl.isActive (btn : FilterControl) : Bool :=
  btn.classList.has "active"

/-- Whether a skill block is shown: its inline display is not `none`. -/
def SkillBlock.isVisible (block : SkillBlock) : Bool :=
  block.display != "none"

/-! ## Timeline (`script.js` lines 125-135) -/

/-- A `.tl-item` element: its class list and the `top` of its bounding rectangle. -/
structure TimelineItem where
  classList : ClassList
  rectTop : Int
  deriving DecidableEq, Repr

/-- The timeline items, `window.pageYOffset`, and the `top` of the last call of `window.scrollTo`. -/
structure TimelinePage where
  timelineItems : List TimelineItem
  pageYOffset : Int
  scrolledTo : Option Int
  deriving DecidableEq, Repr

/-- Lines 128-133: the click handler registered on the timeline item of index `i`. -/
def timelineClick (s : TimelinePage) (i : Nat) : TimelinePage :=
  let cleared := s.timelineItems.map (fun it =>
    { it with classList := it.classList.remove "active" })
  match cleared.get? i with
  | none => s
  | some item =>
    { s with
      timelineItems := cleared.set i { item with classList := item.classList.add "active" }
      scrolledTo := some (item.rectTop + s.pageYOffset - 80) }

/-- A sequence of clicks, given by the indices of the clicked items. -/
def timelineClicks (s : TimelinePage) (clicks : List Nat) : TimelinePage :=
  clicks.foldl timelineClick s

/-- Whether a timeline item carries the `active` marker. -/
def TimelineItem.isActive (it : TimelineItem) : Bool :=
  it.classList.has "active"

/-! ## PDF export (`script.js` lines 137-179) -/

/-- The three courses of the `try` block: `window.html2pdf` is absent,
it is present and `save()` resolves, it is present and rendering throws. -/
inductive Html2pdf where
  | absent : Html2pdf
  | resolves : Html2pdf
  | throws : Html2pdf
  deriving DecidableEq, Repr

/-- What the handler does to the outside world. -/
inductive ExportEffect where
  | savePdf : ExportEffect
  | print : ExportEffect
  | consoleError : ExportEffect
  deriving DecidableEq, Repr

/-- The export control (its `disabled` flag, its content as `innerHTML`, the
class lists of the elements inside it), the class lists of all other elements
of the document, and the effects performed so far. -/
structure ExportPage where
  disabled : Bool
  innerHTML : String
  inside : List ClassList
  elements : List ClassList
  effects : List ExportEffect
  deriving DecidableEq, Repr

/-- Whether an element matches the selector `.btn, .header-actions, .cv-nav`. -/
def matchesExportSelector (l : ClassList) : Bool :=
  l.has "btn" || l.has "header-actions" || l.has "cv-nav"

/-- Lines 143-146: the body of `hideOnExportToggle` for one element of the document. -/
def hideOnExportElement (hide : Bool) (el : ClassList) : ClassList :=
  if matchesExportSelector el then
    (if hide then el.add "hide-on-export" else el.remove "hide-on-export")
  else el

/-- Lines 141-147: `hideOnExportToggle(hide)`. -/
def hideOnExportToggle (s : ExportPage) (hide : Bool) : ExportPage :=
  { s with
    inside := s.inside.map (hideOnExportElement hide)
    elements := s.elements.map (hideOnExportElement hide) }

/-- Line 176: the markup the handler assigns to `innerHTML`. -/
def exportLabel : String :=
  "<i class=\"fa fa-file-pdf\"></i> Télécharger PDF"

/-- Lines 151-153: the handler up to the `try` block.  Assigning `textContent`
replaces the content of the control by one text node. -/
def exportPrepare (s : ExportPage) : ExportPage :=
  hideOnExportToggle { s with disabled := true, innerHTML := "Préparation du PDF...", inside := [] } true

/-- Lines 164-172: the `try` and `catch` blocks. -/
def exportAttempt (s : ExportPage) (h : Html2pdf) : ExportPage :=
  match h with
  | .resolves => { s with effects := s.effects ++ [.savePdf] }
  | .absent => { s with effects := s.effects ++ [.print] }
  | .throws => { s with effects := s.effects ++ [.consoleError, .print] }

/-- Lines 173-177: the `finally` block.  Assigning `innerHTML` puts one `i`
element with the classes `fa` and `fa-file-pdf` inside the control. -/
def exportFinally (s : ExportPage) : ExportPage :=
  let s1 := hideOnExportToggle s false
  { s1 with disabled := false, innerHTML := exportLabel, inside := [["fa", "fa-file-pdf"]] }

/-- Lines 150-178: the click handler of the export control, run until it
settles.  The rendered element and the options of lines 155-162 only feed
`html2pdf` and are left out. -/
def exportClick (s : ExportPage) (h : Html2pdf) : ExportPage :=
  exportFinally (exportAttempt (exportPrepare s) h)

/-- Whether some element of the document carries the `hide-on-export` marker. -/
def ExportPage.anyHidden (s : ExportPage) : Bool :=
  (s.inside ++ s.elements).any (fun el => el.has "hide-on-export")

/-! ## Class list lemmas -/

theorem ClassList.has_add_self (l : ClassList) (c : String) : (l.add c).has c = true := by
  unfold ClassList.add ClassList.has
  by_cases h : c ∈ l <;> simp [h]

theorem ClassList.has_remove_self (l : ClassList) (c : String) : (l.remove c).has c = false := by
  unfold ClassList.remove ClassList.has
  simp [List.mem_filter]

theorem ClassList.has_toggleForce_self (l : ClassList) (c : String) (force : Bool) :
    (l.toggleForce c force).has c = force := by
  unfold ClassList.toggleForce
  cases force
  · simpa using ClassList.has_remove_self l c
  · simpa using ClassList.has_add_self l c

theorem ClassList.has_add_of_ne (l : ClassList) {c d : String} (h : d ≠ c) :
    (l.add c).has d = l.has d := by
  unfold ClassList.add ClassList.has
  by_cases hc : c ∈ l <;> simp [hc, h]

theorem ClassList.has_add_of_has (l : ClassList) {c d : String} (h : l.has d = true) :
    (l.add c).has d = true := by
  unfold ClassList.add ClassList.has at *
  by_cases hc : c ∈ l
  · simpa [hc] using h
  · simp only [hc, if_false, List.mem_append, decide_eq_true_eq] at *
    exact Or.inl h

theorem ClassList.has_remove_of_ne (l : ClassList) {c d : String} (h : d ≠ c) :
    (l.remove c).has d = l.has d := by
  unfold ClassList.remove ClassList.has
  simp [List.mem_filter, h]

theorem ClassList.add_of_has (l : ClassList) {c : String} (h : l.has c = true) :
    l.add c = l := by
  unfold ClassList.add ClassList.has at *
  simp only [decide_eq_true_eq] at h
  simp [h]

/-! ## Skill filters -/

theorem datasetValue_eq_str (a : Option String) (t : String) :
    datasetValue a = .str t ↔ a = some t := by
  cases a <;> simp [datasetValue]

/-- C2: after `setActiveFilter(t)` a filter control carries the `active` marker
exactly when its `data-filter` equals `t`, and a skill block is visible (its
display is not `none`) exactly when `t` is `all` or the block's
`data-category` equals `t`, whatever the class lists and displays were before
the call; the attributes themselves are untouched, and `setActiveFilter('all')`
leaves every block visible. -/
theorem setActiveFilter_spec (s : FiltersPage) (t : String) :
    (setActiveFilter s (.str t)).filters.map FilterControl.isActive
        = s.filters.map (fun btn => decide (btn.dataFilter = some t)) ∧
    (setActiveFilter s (.str t)).filters.map (fun btn => btn.dataFilter)
        = s.filters.map (fun btn => btn.dataFilter) ∧
    (setActiveFilter s (.str t)).skillBlocks.map SkillBlock.isVisible
        = s.skillBlocks.map (fun b => decide (t = "all" ∨ b.dataCategory = some t)) ∧
    (setActiveFilter s (.str t)).skillBlocks.map (fun b => b.dataCategory)
        = s.skillBlocks.map (fun b => b.dataCategory) ∧
    (setActiveFilter s (.str "all")).skillBlocks.all SkillBlock.isVisible = true := by
  refine ⟨?_, ?_, ?_, ?_, ?_⟩
  · simp only [setActiveFilter, List.map_map]
    apply List.map_congr_left
    intro btn _
    simp [FilterControl.isActive, ClassList.has_toggleForce_self, datasetValue_eq_str]
  · simp only [setActiveFilter, List.map_map]
    apply List.map_congr_left
    intro btn _
    rfl
  · simp only [setActiveFilter, List.map_map]
    apply List.map_congr_left
    intro b _
    simp only [Function.comp, JSValue.str.injEq, datasetValue_eq_str]
    by_cases h : t = "all" ∨ b.dataCategory = some t
    · simp [h, SkillBlock.isVisible]
    · simp [h, SkillBlock.isVisible]
  · simp only [setActiveFilter, List.map_map]
    apply List.map_congr_left
    intro b _
    simp only [Function.comp]
    split <;> rfl
  · rw [List.all_eq_true]
    intro b hb
    simp only [setActiveFilter, List.mem_map] at hb
    obtain ⟨b0, _, rfl⟩ := hb
    simp [SkillBlock.isVisible]

/-! ## Timeline -/

theorem timelineClick_length (s : TimelinePage) (i : Nat) :
    (timelineClick s i).timelineItems.length = s.timelineItems.length := by
  unfold timelineClick
  simp only
  split <;> simp

theorem timelineClicks_length (s : TimelinePage) (clicks : List Nat) :
    (timelineClicks s clicks).timelineItems.length = s.timelineItems.length := by
  induction clicks generalizing s with
  | nil => rfl
  | cons c cs ih =>
    simp only [timelineClicks, List.foldl_cons] at ih ⊢
    rw [ih, timelineClick_length]

theorem timelineClick_items (s : TimelinePage) (i : Nat) (hi : i < s.timelineItems.length) :
    (timelineClick s i).timelineItems
      = (s.timelineItems.map (fun it =>
          ({ it with classList := it.classList.remove "active" } : TimelineItem))).set i
          { classList := ((s.timelineItems.get ⟨i, hi⟩).classList.remove "active").add "active"
            rectTop := (s.timelineItems.get ⟨i, hi⟩).rectTop } := by
  unfold timelineClick
  simp [List.getElem?_eq_getElem, hi]

theorem timelineClick_active (s : TimelinePage) (i : Nat) (hi : i < s.timelineItems.length) :
    (timelineClick s i).timelineItems.map TimelineItem.isActive
      = (List.range s.timelineItems.length).map (fun j => decide (j = i)) := by
  rw [timelineClick_items s i hi]
  apply List.ext_getElem
  · simp
  · intro j h1 h2
    simp only [List.getElem_map, List.getElem_range, List.getElem_set]
    by_cases hji : j = i
    · subst hji
      simp [TimelineItem.isActive, ClassList.has_add_self]
    · have hij : ¬ i = j := fun h => hji h.symm
      simp [hij, hji, TimelineItem.isActive, ClassList.has_remove_self]

theorem countP_decide_eq_range (n i : Nat) (hi : i < n) :
    ((List.range n).map (fun j => decide (j = i))).count true = 1 := by
  induction n with
  | zero => omega
  | succ n ih =>
    rw [List.range_succ, List.map_append, List.count_append]
    by_cases h : i = n
    · subst h
      have : ((List.range i).map (fun j => decide (j = i))).count true = 0 := by
        rw [List.count_eq_zero]
        simp only [List.mem_map, List.mem_range, decide_eq_true_eq, not_exists, not_and]
        intro x hx
        omega
      simp [this]
    · have hlt : i < n := by omega
      have hne : ¬ n = i := fun h' => h h'.symm
      simp [ih hlt, hne]

/-- C3: after any sequence of clicks on timeline items that ends with a click
on the item of index `i`, whatever markers the items carried at the start,
item `i` carries the `active` marker and no other item does; so exactly one
item is active after every non-empty sequence of clicks, and after activating
B and then C only C is active. -/
theorem timelineClicks_exclusive (s : TimelinePage) (clicks : List Nat) (i : Nat)
    (hi : i < s.timelineItems.length) :
    (timelineClicks s (clicks ++ [i])).timelineItems.map TimelineItem.isActive
      = (List.range s.timelineItems.length).map (fun j => decide (j = i)) ∧
    ((timelineClicks s (clicks ++ [i])).timelineItems.map TimelineItem.isActive).count true
      = 1 := by
  have key : (timelineClicks s (clicks ++ [i])).timelineItems.map TimelineItem.isActive
      = (List.range s.timelineItems.length).map (fun j => decide (j = i)) := by
    unfold timelineClicks
    rw [List.foldl_append, List.foldl_cons, List.foldl_nil]
    have hlen := timelineClicks_length s clicks
    unfold timelineClicks at hlen
    rw [timelineClick_active _ _ (by rw [hlen]; exact hi), hlen]
  exact ⟨key, by rw [key]; exact countP_decide_eq_range _ _ hi⟩

/-- Witness for C3 on three items of which the first two start active:
clicking item 1 and then item 2 leaves only item 2 active. -/
theorem timelineClicks_exclusive_witness :
    (timelineClicks ⟨[⟨["tl-item", "active"], 0⟩, ⟨["active"], 10⟩, ⟨[], 20⟩], 0, none⟩
        ([1] ++ [2])).timelineItems.map TimelineItem.isActive
      = (List.range 3).map (fun j => decide (j = 2)) ∧
    ((timelineClicks ⟨[⟨["tl-item", "active"], 0⟩, ⟨["active"], 10⟩, ⟨[], 20⟩], 0, none⟩
        ([1] ++ [2])).timelineItems.map TimelineItem.isActive).count true = 1 :=
  timelineClicks_exclusive
    ⟨[⟨["tl-item", "active"], 0⟩, ⟨["active"], 10⟩, ⟨[], 20⟩], 0, none⟩ [1] 2 (by decide)

/-! ## Resolved skill value -/

theorem parseInt_str_of_isEmpty (s : String) (h : s.data.isEmpty = true) :
    parseInt (.str s) = none := by
  have h0 : s.data = [] := by simpa using h
  simp only [parseInt, JSValue.toStr, h0]
  decide

theorem resolvedValue_some_of_parse (s : String) (n : Int) (h : parseInt (.str s) = some n) :
    resolvedValue (some s) = some (min 100 n) := by
  have hne : s.data.isEmpty = false := by
    cases hs : s.data.isEmpty
    · rfl
    · rw [parseInt_str_of_isEmpty s hs] at h
      cases h
  simp [resolvedValue, datasetValue, JSValue.or, JSValue.truthy, hne, h, mathMin100]

theorem resolvedValue_none_of_parse (s : String) (hs : s ≠ "") (h : parseInt (.str s) = none) :
    resolvedValue (some s) = none := by
  have hne : s.data.isEmpty = false := by
    cases hd : s.data.isEmpty
    · rfl
    · exfalso
      apply hs
      have h0 : s.data = [] := by simpa using hd
      cases s
      simp_all
  simp [resolvedValue, datasetValue, JSValue.or, JSValue.truthy, hne, h, mathMin100]

theorem resolvedValue_le (dataValue : Option String) (n : Int)
    (h : resolvedValue dataValue = some n) : n ≤ 100 := by
  unfold resolvedValue at h
  generalize parseInt ((datasetValue dataValue).or (.num (some 0))) = r at h
  cases r with
  | none => simp [mathMin100] at h
  | some m =>
    simp only [mathMin100, Option.some.injEq] at h
    omega

/-- C1, counterexample: for `data-value="-5"` the callback resolves `-5` and
writes `aria-valuenow="-5"` and the width `-5%`, not `0`; for
`data-value="abc"` it resolves `NaN`, not `0`. -/
theorem resolvedValue_counterexample :
    resolvedValue (some "-5") = some (-5) ∧
    resolvedValue (some "-5") ≠ some 0 ∧
    (animationFrame (deliver (skillBarsStartup true [⟨some "-5", some "", none⟩])
        [⟨0, true⟩])).bars = [⟨some "-5", some "-5%", some "-5"⟩] ∧
    resolvedValue (some "abc") = none ∧
    (animationFrame (deliver (skillBarsStartup true [⟨some "abc", some "", none⟩])
        [⟨0, true⟩])).bars = [⟨some "abc", some "NaN%", some "NaN"⟩] := by
  decide

/-- C1, amended: the value the intersection callback resolves from `data-value`
is never above 100.  It is 0 when the attribute is absent or empty; when the
attribute parses to an integer `n` it is 100 for `n > 100` and `n` itself for
`n ≤ 100`, negative values included (exact for `n ≥ -2^53`); when the attribute
is not empty and does not parse, it is `NaN`.  For a bar with a fill element
the callback writes that value to `aria-valuenow` and, followed by `%`, to the
fill width. -/
theorem resolvedValue_spec :
    (resolvedValue none = some 0 ∧ resolvedValue (some "") = some 0) ∧
    (∀ (s : String) (n : Int), parseInt (.str s) = some n →
      (100 < n → resolvedValue (some s) = some 100) ∧
      (-9007199254740992 ≤ n → n ≤ 100 → resolvedValue (some s) = some n)) ∧
    (∀ s : String, s ≠ "" → parseInt (.str s) = none → resolvedValue (some s) = none) ∧
    (∀ (dataValue : Option String) (n : Int), resolvedValue dataValue = some n → n ≤ 100) ∧
    (∀ (dataValue : Option String) (w : String) (a : Option String),
      (animationFrame (deliver (skillBarsStartup true [⟨dataValue, some w, a⟩])
          [⟨0, true⟩])).bars
        = [⟨dataValue, some (numberToString (resolvedValue dataValue) ++ "%"),
            some (numberToString (resolvedValue dataValue))⟩]) := by
  refine ⟨⟨by decide, by decide⟩, ?_, ?_, ?_, ?_⟩
  · intro s n h
    rw [resolvedValue_some_of_parse s n h]
    constructor
    · intro hn
      rw [min_eq_left (le_of_lt hn)]
    · intro _ hn
      rw [min_eq_right hn]
  · exact resolvedValue_none_of_parse
  · exact resolvedValue_le
  · intro dataValue w a
    simp [animationFrame, deliver, skillBarsStartup, skillBarCallback, skillBarEntry,
      runFrame, JSValue.toStr]

/-- Witness for C1 (amended): `data-value="42px"` parses to 42 and resolves to 42. -/
theorem resolvedValue_spec_witness : resolvedValue (some "42px") = some 42 :=
  (resolvedValue_spec.2.1 "42px" 42 (by decide)).2 (by decide) (by decide)

/-! ## Theme -/

theorem applyTheme_storage (s : ThemePage) (theme : JSValue) :
    (applyTheme s theme).storage = s.storage := by
  unfold applyTheme
  split <;> rfl

theorem themeStartup_storage (stored : Option String) (matchMedia : Option Bool)
    (hasToggle : Bool) (ariaPressed dataTheme : Option String) :
    (themeStartup stored matchMedia hasToggle ariaPressed dataTheme).storage = stored := by
  simp [themeStartup, applyTheme_storage]

theorem themeToggleClick_storage (s : ThemePage) :
    (themeToggleClick s).storage
      = some (if s.storage = some "dark" then "light" else "dark") := by
  simp [themeToggleClick, applyTheme_storage]

theorem themeToggleClick_iterate_storage (s : ThemePage) (h : s.storage ≠ some "dark")
    (N : Nat) (hN : 1 ≤ N) :
    (themeToggleClick^[N] s).storage = some (if N % 2 = 0 then "light" else "dark") := by
  induction N with
  | zero => omega
  | succ k ih =>
    rw [Function.iterate_succ_apply', themeToggleClick_storage]
    rcases Nat.eq_zero_or_pos k with hk | hk
    · subst hk
      simp [h]
    · rw [ih hk]
      rcases Nat.mod_two_eq_zero_or_one k with h0 | h1
      · have : (k + 1) % 2 = 1 := by omega
        simp [h0, this]
      · have : (k + 1) % 2 = 0 := by omega
        simp [h1, this]

theorem stored_ne_dark_of_initial_light (stored : Option String) (matchMedia : Option Bool)
    (h : initialTheme stored matchMedia = .str "light") : stored ≠ some "dark" := by
  intro hs
  subst hs
  cases matchMedia <;> simp [initialTheme, datasetValue, JSValue.or, JSValue.truthy] at h

/-- C5, counterexample: on a first visit (no stored entry, system preference
light) the theme resolved at startup is light, but after zero toggles nothing
is persisted under `cv_theme`: the entry is absent, not `light`. -/
theorem toggle_parity_counterexample :
    initialTheme none (some false) = .str "light" ∧
    (themeToggleClick^[0] (themeStartup none (some false) true none none)).storage = none ∧
    (themeToggleClick^[0] (themeStartup none (some false) true none none)).storage
      ≠ some (if 0 % 2 = 0 then "light" else "dark") := by
  decide

/-- C5, amended: given that the theme resolved at startup is light, for every
`N ≥ 1` the value persisted under `cv_theme` after `N` invocations of the
toggle handler is `light` if `N` is even and `dark` if `N` is odd; before the
first invocation the entry is what it was at startup (startup persists nothing). -/
theorem toggle_parity (stored : Option String) (matchMedia : Option Bool) (hasToggle : Bool)
    (ariaPressed dataTheme : Option String) (N : Nat)
    (hlight : initialTheme stored matchMedia = .str "light") :
    (1 ≤ N →
      (themeToggleClick^[N]
          (themeStartup stored matchMedia hasToggle ariaPressed dataTheme)).storage
        = some (if N % 2 = 0 then "light" else "dark")) ∧
    (themeToggleClick^[0]
        (themeStartup stored matchMedia hasToggle ariaPressed dataTheme)).storage = stored := by
  constructor
  · intro hN
    apply themeToggleClick_iterate_storage _ _ N hN
    rw [themeStartup_storage]
    exact stored_ne_dark_of_initial_light stored matchMedia hlight
  · simp [themeStartup_storage]

/-- Witness for C5 (amended): first visit with a light system preference, three toggles. -/
theorem toggle_parity_witness :
    initialTheme none (some false) = .str "light" ∧
    (themeToggleClick^[3] (themeStartup none (some false) true none none)).storage
      = some (if 3 % 2 = 0 then "light" else "dark") :=
  ⟨by decide, (toggle_parity none (some false) true none none 3 (by decide)).1 (by decide)⟩

theorem appliedTheme_applyTheme (s : ThemePage) (theme : JSValue) :
    appliedTheme (applyTheme s theme) = if theme = .str "dark" then "dark" else "light" := by
  unfold applyTheme appliedTheme
  split <;> simp_all

/-- The toggle handler always persists the theme it applies, and it flips the
applied theme in every start state with a stored `light` or `dark`, or with no
stored entry and a system preference that is not dark. -/
theorem themeToggleClick_flips_from_storage (stored : Option String)
    (matchMedia : Option Bool) (hasToggle : Bool) (ariaPressed dataTheme : Option String)
    (hvalid : stored = none ∨ stored = some "light" ∨ stored = some "dark")
    (hsys : stored = none → matchMedia ≠ some true) :
    appliedTheme (themeToggleClick
        (themeStartup stored matchMedia hasToggle ariaPressed dataTheme))
      ≠ appliedTheme (themeStartup stored matchMedia hasToggle ariaPressed dataTheme) ∧
    (themeToggleClick (themeStartup stored matchMedia hasToggle ariaPressed dataTheme)).storage
      = some (appliedTheme (themeToggleClick
          (themeStartup stored matchMedia hasToggle ariaPressed dataTheme))) := by
  rcases hvalid with h | h | h <;> subst h
  · rcases matchMedia with _ | b
    · simp [themeToggleClick, themeStartup, appliedTheme_applyTheme, applyTheme_storage,
        initialTheme, datasetValue, JSValue.or, JSValue.truthy]
    · cases b
      · simp [themeToggleClick, themeStartup, appliedTheme_applyTheme, applyTheme_storage,
          initialTheme, datasetValue, JSValue.or, JSValue.truthy]
      · exact absurd rfl (hsys rfl)
  · simp [themeToggleClick, themeStartup, appliedTheme_applyTheme, applyTheme_storage,
      initialTheme, datasetValue, JSValue.or, JSValue.truthy]
  · simp [themeToggleClick, themeStartup, appliedTheme_applyTheme, applyTheme_storage,
      initialTheme, datasetValue, JSValue.or, JSValue.truthy]

/-- C6, evaluation at the failing input: with no stored entry and a dark
system preference the document starts dark, and one invocation of the toggle
handler persists `dark` and leaves the document dark. -/
theorem themeToggleClick_system_dark :
    appliedTheme (themeStartup none (some true) true none none) = "dark" ∧
    appliedTheme (themeToggleClick (themeStartup none (some true) true none none)) = "dark" ∧
    (themeToggleClick (themeStartup none (some true) true none none)).storage = some "dark" := by
  decide

/-- C8: for a stored entry that is absent, `light` or `dark` (the values the
script writes under `cv_theme`), the theme resolved at startup is one of
`light` or `dark` and follows the precedence persisted, then system, then
default: a persisted value is the resolved theme whatever the system
preference; with no entry it is `dark` when the system preference is dark, and
`light` when the preference is light or `matchMedia` is unavailable.  The
document shows the resolved theme. -/
theorem initialTheme_precedence (stored : Option String) (matchMedia : Option Bool)
    (hasToggle : Bool) (ariaPressed dataTheme : Option String)
    (hdom : stored = none ∨ stored = some "light" ∨ stored = some "dark") :
    (initialTheme stored matchMedia = .str "light" ∨
      initialTheme stored matchMedia = .str "dark") ∧
    (∀ v : String, stored = some v → initialTheme stored matchMedia = .str v) ∧
    (stored = none → matchMedia = some true → initialTheme stored matchMedia = .str "dark") ∧
    (stored = none → matchMedia ≠ some true →
      initialTheme stored matchMedia = .str "light") ∧
    JSValue.str (appliedTheme (themeStartup stored matchMedia hasToggle ariaPressed dataTheme))
      = initialTheme stored matchMedia := by
  rcases hdom with h | h | h <;> subst h
  · rcases matchMedia with _ | b
    · simp [themeStartup, appliedTheme_applyTheme, initialTheme, datasetValue, JSValue.or,
        JSValue.truthy]
    · cases b <;>
        simp [themeStartup, appliedTheme_applyTheme, initialTheme, datasetValue, JSValue.or,
          JSValue.truthy]
  · simp [themeStartup, appliedTheme_applyTheme, initialTheme, datasetValue, JSValue.or,
      JSValue.truthy]
  · simp [themeStartup, appliedTheme_applyTheme, initialTheme, datasetValue, JSValue.or,
      JSValue.truthy]

/-- Witness for C8: a stored `dark` wins over a light system preference. -/
theorem initialTheme_precedence_witness :
    initialTheme (some "dark") (some false) = .str "dark" :=
  (initialTheme_precedence (some "dark") (some false) true none none
    (Or.inr (Or.inr rfl))).2.1 "dark" rfl

/-! ## Smooth anchors -/

theorem headerOffset_of_parse (cssValue : String) (n : Int)
    (h : parseInt (.str cssValue) = some n) (hn : n ≠ 0) :
    headerOffset cssValue = .num (some n) := by
  simp [headerOffset, h, JSValue.or, JSValue.truthy, hn]

theorem headerOffset_default (cssValue : String)
    (h : parseInt (.str cssValue) = none ∨ parseInt (.str cssValue) = some 0) :
    headerOffset cssValue = .num (some 24) := by
  rcases h with h | h <;> simp [headerOffset, h, JSValue.or, JSValue.truthy]

/-- C9, counterexample: with `--header-offset` set to `0` the header offset is
24, so a target at absolute offset 600 is scrolled to 576, not to 600. -/
theorem headerOffset_zero_counterexample :
    parseInt (.str "0") = some 0 ∧
    headerOffset "0" = .num (some 24) ∧
    scrollToHashWithOffset ⟨fun _ => some 500, 100, "0"⟩ (.str "#about") = some 576 ∧
    scrollToHashWithOffset ⟨fun _ => some 500, 100, "0"⟩ (.str "#about")
      ≠ some (100 + 500 - 0) := by
  decide

/-- C9, amended: for every existing target element with absolute vertical
offset `y` (page scroll offset plus the `top` of its bounding rectangle),
`scrollToHashWithOffset` scrolls to `y - h`, where `h` is the integer that
`--header-offset` parses to whenever that integer is not 0, and `h` is 24
when the variable is absent, does not parse to a number, or parses to 0. -/
theorem scrollToHashWithOffset_spec (p : ScrollPage) (hash : JSValue) (rectTop : Int)
    (hhash : hash.truthy = true) (hel : p.querySelector hash.toStr = some rectTop) :
    (∀ n : Int, parseInt (.str p.headerOffsetVar) = some n → n ≠ 0 →
      scrollToHashWithOffset p hash = some (p.pageYOffset + rectTop - n)) ∧
    (parseInt (.str p.headerOffsetVar) = none ∨ parseInt (.str p.headerOffsetVar) = some 0 →
      scrollToHashWithOffset p hash = some (p.pageYOffset + rectTop - 24)) ∧
    parseInt (.str "") = none := by
  refine ⟨?_, ?_, by decide⟩
  · intro n h hn
    simp [scrollToHashWithOffset, hhash, hel, headerOffset_of_parse _ n h hn]
  · intro h
    simp [scrollToHashWithOffset, hhash, hel, headerOffset_default _ h]

/-- Witness for C9 (amended): `--header-offset: 72px`, target 500 below the
viewport top, page scrolled by 100. -/
theorem scrollToHashWithOffset_spec_witness :
    scrollToHashWithOffset ⟨fun _ => some 500, 100, " 72px"⟩ (.str "#about")
      = some (100 + 500 - 72) :=
  (scrollToHashWithOffset_spec ⟨fun _ => some 500, 100, " 72px"⟩ (.str "#about") 500
    (by decide) rfl).1 72 (by decide) (by decide)

/-! ## Fallback against the observer path -/

/-- C10, evaluation at the failing inputs: for `data-value="137"` the fallback
writes the width `137%` and `aria-valuenow="137"` where the observer path ends
with `100%` and `100`; for a bar without a fill element the fallback writes
`aria-valuenow` where the observer path writes nothing. -/
theorem fallback_differs_from_observer :
    (skillBarsStartup false [⟨some "137", some "", none⟩]).bars
      = [⟨some "137", some "137%", some "137"⟩] ∧
    (animationFrame (deliver (skillBarsStartup true [⟨some "137", some "", none⟩])
        [⟨0, true⟩])).bars = [⟨some "137", some "100%", some "100"⟩] ∧
    (skillBarsStartup false [⟨some "50", none, none⟩]).bars = [⟨some "50", none, some "50"⟩] ∧
    (animationFrame (deliver (skillBarsStartup true [⟨some "50", none, none⟩])
        [⟨0, true⟩])).bars = [⟨some "50", none, none⟩] := by
  decide

/-! ## One-shot triggers -/

theorem skillBarEntry_length (s : BarsPage) (e : Entry) :
    (skillBarEntry s e).bars.length = s.bars.length := by
  unfold skillBarEntry
  split
  · split
    · rfl
    · rename_i bar _
      cases hf : bar.fillWidth <;> simp
  · rfl

theorem skillBarEntry_observed_subset (s : BarsPage) (e : Entry) (i : Nat)
    (h : i ∉ s.observed) : i ∉ (skillBarEntry s e).observed := by
  unfold skillBarEntry
  split
  · split
    · exact h
    · rename_i bar _
      cases hf : bar.fillWidth <;> simp [List.mem_filter, h]
  · exact h

theorem skillBarEntry_unobserves (s : BarsPage) (i : Nat) (hi : i < s.bars.length) :
    i ∉ (skillBarEntry s ⟨i, true⟩).observed := by
  unfold skillBarEntry
  simp only [if_true, List.get?_eq_getElem?, List.getElem?_eq_getElem hi]
  cases hf : (s.bars[i]).fillWidth <;> simp [List.mem_filter]

theorem skillBarEntry_other (s : BarsPage) (e : Entry) (i : Nat) (h : e.target ≠ i) :
    (skillBarEntry s e).bars.get? i = s.bars.get? i ∧
    (skillBarEntry s e).frames.filter (fun f => f.1 == i) = s.frames.filter (fun f => f.1 == i) := by
  unfold skillBarEntry
  split
  · split
    · exact ⟨rfl, rfl⟩
    · rename_i bar _
      cases hf : bar.fillWidth
      · exact ⟨rfl, rfl⟩
      · simp [List.filter_append, h]
  · exact ⟨rfl, rfl⟩

theorem skillBarCallback_length (s : BarsPage) (es : List Entry) :
    (skillBarCallback s es).bars.length = s.bars.length := by
  induction es generalizing s with
  | nil => rfl
  | cons e es ih =>
    simp only [skillBarCallback, List.foldl_cons] at ih ⊢
    rw [ih, skillBarEntry_length]

theorem skillBarCallback_observed_subset (s : BarsPage) (es : List Entry) (i : Nat)
    (h : i ∉ s.observed) : i ∉ (skillBarCallback s es).observed := by
  induction es generalizing s with
  | nil => exact h
  | cons e es ih =>
    simp only [skillBarCallback, List.foldl_cons] at ih ⊢
    exact ih _ (skillBarEntry_observed_subset s e i h)

theorem skillBarCallback_unobserves (s : BarsPage) (es : List Entry) (i : Nat)
    (hmem : (⟨i, true⟩ : Entry) ∈ es) (hi : i < s.bars.length) :
    i ∉ (skillBarCallback s es).observed := by
  induction es generalizing s with
  | nil => simp at hmem
  | cons e es ih =>
    simp only [skillBarCallback, List.foldl_cons] at ih ⊢
    rcases List.mem_cons.mp hmem with heq | htail
    · subst heq
      exact skillBarCallback_observed_subset _ es i (skillBarEntry_unobserves s i hi)
    · exact ih _ htail (by rw [skillBarEntry_length]; exact hi)

theorem skillBarCallback_other (s : BarsPage) (es : List Entry) (i : Nat)
    (h : ∀ e ∈ es, e.target ≠ i) :
    (skillBarCallback s es).bars.get? i = s.bars.get? i ∧
    (skillBarCallback s es).frames.filter (fun f => f.1 == i)
      = s.frames.filter (fun f => f.1 == i) := by
  induction es generalizing s with
  | nil => exact ⟨rfl, rfl⟩
  | cons e es ih =>
    simp only [skillBarCallback, List.foldl_cons] at ih ⊢
    have h1 := skillBarEntry_other s e i (h e (List.mem_cons_self _ _))
    have h2 := ih (skillBarEntry s e) (fun e' he' => h e' (List.mem_cons_of_mem _ he'))
    exact ⟨h2.1.trans h1.1, h2.2.trans h1.2⟩

theorem cardEntry_observed (s : CardsPage) (e : Entry) :
    (cardEntry s e).observed = s.observed := by
  unfold cardEntry
  split
  · split <;> rfl
  · rfl

theorem cardEntry_length (s : CardsPage) (e : Entry) :
    (cardEntry s e).cards.length = s.cards.length := by
  unfold cardEntry
  split
  · split <;> simp
  · rfl

theorem cardEntry_reveals (s : CardsPage) (i : Nat) (hi : i < s.cards.length) :
    (cardEntry s ⟨i, true⟩).revealed i = true := by
  unfold cardEntry CardsPage.revealed
  simp only [if_true, List.get?_eq_getElem?, List.getElem?_eq_getElem hi]
  rw [List.getElem?_set_self (by simpa using hi)]
  exact ClassList.has_add_self _ _

theorem cardEntry_keeps (s : CardsPage) (e : Entry) (i : Nat) (h : s.revealed i = true) :
    (cardEntry s e).cards.get? i = s.cards.get? i ∧ (cardEntry s e).revealed i = true := by
  have key : (cardEntry s e).cards.get? i = s.cards.get? i := by
    unfold CardsPage.revealed at h
    unfold cardEntry
    split
    · split
      · rfl
      · rename_i card hcard
        by_cases ht : e.target = i
        · rw [ht] at hcard
          rw [hcard] at h
          simp only at h
          simp only [ht, List.get?_eq_getElem?, List.getElem?_set_self', ClassList.add_of_has _ h]
          simp only [List.get?_eq_getElem?] at hcard
          rw [hcard]
          rfl
        · simp [List.getElem?_set_ne ht]
    · rfl
  refine ⟨key, ?_⟩
  unfold CardsPage.revealed at h ⊢
  rw [key]
  exact h

theorem cardCallback_observed (s : CardsPage) (es : List Entry) :
    (cardCallback s es).observed = s.observed := by
  induction es generalizing s with
  | nil => rfl
  | cons e es ih =>
    simp only [cardCallback, List.foldl_cons] at ih ⊢
    rw [ih, cardEntry_observed]

theorem cardCallback_keeps (s : CardsPage) (es : List Entry) (i : Nat)
    (h : s.revealed i = true) :
    (cardCallback s es).cards.get? i = s.cards.get? i ∧
    (cardCallback s es).revealed i = true := by
  induction es generalizing s with
  | nil => exact ⟨rfl, h⟩
  | cons e es ih =>
    simp only [cardCallback, List.foldl_cons] at ih ⊢
    have h1 := cardEntry_keeps s e i h
    have h2 := ih (cardEntry s e) h1.2
    exact ⟨h2.1.trans h1.1, h2.2⟩

theorem cardCallback_reveals (s : CardsPage) (es : List Entry) (i : Nat)
    (hmem : (⟨i, true⟩ : Entry) ∈ es) (hi : i < s.cards.length) :
    (cardCallback s es).revealed i = true := by
  induction es generalizing s with
  | nil => simp at hmem
  | cons e es ih =>
    simp only [cardCallback, List.foldl_cons] at ih ⊢
    rcases List.mem_cons.mp hmem with heq | htail
    · subst heq
      exact (cardCallback_keeps _ es i (cardEntry_reveals s i hi)).2
    · exact ih _ htail (by rw [cardEntry_length]; exact hi)

/-- C7, counterexample: a card is still observed after its first intersecting
notification, and delivering the same notification a second time calls
`classList.add('in-view')` on it again. -/
theorem card_still_observed_counterexample :
    (deliverCards (cardsStartup true [["card"]]) [⟨0, true⟩]).observed = [0] ∧
    (deliverCards (cardsStartup true [["card"]]) [⟨0, true⟩]).addCalls = [0] ∧
    (deliverCards (deliverCards (cardsStartup true [["card"]]) [⟨0, true⟩])
        [⟨0, true⟩]).addCalls = [0, 0] := by
  decide

/-- C7, amended: a skill bar is one-shot: a batch holding an intersecting
notification for an observed bar leaves the bar unobserved; once a bar is
unobserved, delivering that notification again changes nothing, and no later
batch changes the bar, queues a new width for it, or observes it again.  A
card is not unobserved: the observed set of the card observer never changes,
and every intersecting notification for an observed card calls
`classList.add('in-view')` on it.  An intersecting notification for an observed card leaves it with the `in-view`
marker, and once a card carries the marker no batch changes its class list. -/
theorem oneShot_spec (i : Nat) :
    (∀ (s : BarsPage) (batch : List Entry), (⟨i, true⟩ : Entry) ∈ batch → i ∈ s.observed →
      i < s.bars.length → i ∉ (deliver s batch).observed) ∧
    (∀ (s : BarsPage) (b : Bool), i ∉ s.observed → deliver s [⟨i, b⟩] = s) ∧
    (∀ (s : BarsPage) (batch : List Entry), i ∉ s.observed →
      (deliver s batch).bars.get? i = s.bars.get? i ∧
      (deliver s batch).frames.filter (fun f => f.1 == i)
        = s.frames.filter (fun f => f.1 == i) ∧
      i ∉ (deliver s batch).observed) ∧
    (∀ (s : CardsPage) (batch : List Entry), (deliverCards s batch).observed = s.observed) ∧
    (∀ s : CardsPage, i ∈ s.observed → i < s.cards.length →
      (deliverCards s [⟨i, true⟩]).addCalls = s.addCalls ++ [i]) ∧
    (∀ (s : CardsPage) (batch : List Entry), (⟨i, true⟩ : Entry) ∈ batch → i ∈ s.observed →
      i < s.cards.length → (deliverCards s batch).revealed i = true) ∧
    (∀ (s : CardsPage) (batch : List Entry), s.revealed i = true →
      (deliverCards s batch).cards.get? i = s.cards.get? i ∧
      (deliverCards s batch).revealed i = true) := by
  refine ⟨?_, ?_, ?_, ?_, ?_, ?_, ?_⟩
  · intro s batch hmem hobs hi
    apply skillBarCallback_unobserves _ _ _ _ hi
    simp [List.mem_filter, hmem, hobs]
  · intro s b hobs
    simp [deliver, skillBarCallback, hobs]
  · intro s batch hobs
    have hne : ∀ e ∈ batch.filter (fun e => decide (e.target ∈ s.observed)), e.target ≠ i := by
      intro e he hei
      simp only [List.mem_filter, decide_eq_true_eq] at he
      exact hobs (hei ▸ he.2)
    have h1 := skillBarCallback_other s _ i hne
    exact ⟨h1.1, h1.2, skillBarCallback_observed_subset s _ i hobs⟩
  · intro s batch
    exact cardCallback_observed s _
  · intro s hobs hi
    simp [deliverCards, cardCallback, cardEntry, hobs, List.getElem?_eq_getElem hi]
  · intro s batch hmem hobs hi
    apply cardCallback_reveals _ _ _ _ hi
    simp [List.mem_filter, hmem, hobs]
  · intro s batch h
    exact cardCallback_keeps s _ i h

/-- Witness for C7 (amended): two bars; the first intersecting notification for
bar 1 unobserves it. -/
theorem oneShot_spec_witness :
    1 ∉ (deliver (skillBarsStartup true [⟨some "80", some "", none⟩, ⟨some "60", some "", none⟩])
      [⟨1, true⟩]).observed :=
  (oneShot_spec 1).1
    (skillBarsStartup true [⟨some "80", some "", none⟩, ⟨some "60", some "", none⟩])
    [⟨1, true⟩] (by decide) (by decide) (by decide)

/-! ## PDF export -/

theorem matchesExportSelector_hideOnExportElement (hide : Bool) (el : ClassList) :
    matchesExportSelector (hideOnExportElement hide el) = matchesExportSelector el := by
  unfold hideOnExportElement
  cases hm : matchesExportSelector el
  · simp [hm]
  · cases hide
    · simp only [if_true, matchesExportSelector, Bool.false_eq_true, if_false]
      rw [ClassList.has_remove_of_ne _ (by decide), ClassList.has_remove_of_ne _ (by decide),
        ClassList.has_remove_of_ne _ (by decide)]
      exact hm
    · simp only [if_true, matchesExportSelector]
      rw [ClassList.has_add_of_ne _ (by decide), ClassList.has_add_of_ne _ (by decide),
        ClassList.has_add_of_ne _ (by decide)]
      exact hm

theorem hideOnExportElement_false_marker (el : ClassList)
    (h : matchesExportSelector el = true) :
    (hideOnExportElement false el).has "hide-on-export" = false := by
  simp [hideOnExportElement, h, ClassList.has_remove_self]

theorem hideOnExportElement_of_not_matches (hide : Bool) (el : ClassList)
    (h : matchesExportSelector el = false) : hideOnExportElement hide el = el := by
  simp [hideOnExportElement, h]

theorem exportClick_elements (s : ExportPage) (h : Html2pdf) :
    (exportClick s h).elements
      = s.elements.map (fun el => hideOnExportElement false (hideOnExportElement true el)) := by
  cases h <;>
    simp [exportClick, exportFinally, exportAttempt, exportPrepare, hideOnExportToggle]

theorem exportClick_shown (el : ClassList) :
    (matchesExportSelector (hideOnExportElement false (hideOnExportElement true el)) &&
      (hideOnExportElement false (hideOnExportElement true el)).has "hide-on-export") = false := by
  cases hm : matchesExportSelector el
  · simp [hideOnExportElement_of_not_matches, hm]
  · rw [hideOnExportElement_false_marker _
      (by rw [matchesExportSelector_hideOnExportElement]; exact hm)]
    simp

/-- C4, counterexample: a control whose label was `Export PDF` before the click
has the fixed markup of line 176 as its label when the handler settles, and an
element outside the selector `.btn, .header-actions, .cv-nav` that carried
`hide-on-export` before the click still carries it. -/
theorem exportClick_counterexample :
    (exportClick ⟨false, "Export PDF", [], [["btn"], ["note", "hide-on-export"]], []⟩
        Html2pdf.resolves).innerHTML = exportLabel ∧
    (exportClick ⟨false, "Export PDF", [], [["btn"], ["note", "hide-on-export"]], []⟩
        Html2pdf.resolves).innerHTML ≠ "Export PDF" ∧
    (exportClick ⟨false, "Export PDF", [], [["btn"], ["note", "hide-on-export"]], []⟩
        Html2pdf.resolves).anyHidden = true := by
  decide

/-- C4, amended: in each of the three cases (html2pdf present and `save()`
resolves, present and rendering throws, absent), when the export handler
settles the control's disabled flag is false, its label is the fixed markup
of line 176 (equal to the label before the click when the control had that
markup), and no element matched by `.btn, .header-actions, .cv-nav` carries
the `hide-on-export` marker; no element at all carries it when none outside
that selector carried it before the click.  The PDF is saved in the first
case, and the native print flow runs in the other two. -/
theorem exportClick_spec (s : ExportPage) (h : Html2pdf) :
    (exportClick s h).disabled = false ∧
    (exportClick s h).innerHTML = exportLabel ∧
    (s.innerHTML = exportLabel → (exportClick s h).innerHTML = s.innerHTML) ∧
    ((exportClick s h).inside ++ (exportClick s h).elements).all
      (fun el => !(matchesExportSelector el && el.has "hide-on-export")) = true ∧
    (s.elements.all (fun el => matchesExportSelector el || !(el.has "hide-on-export")) = true →
      (exportClick s h).anyHidden = false) ∧
    (exportClick s h).effects = s.effects ++
      (match h with
        | .resolves => [ExportEffect.savePdf]
        | .absent => [ExportEffect.print]
        | .throws => [ExportEffect.consoleError, ExportEffect.print]) := by
  have hin : (exportClick s h).inside = [["fa", "fa-file-pdf"]] := by
    cases h <;> rfl
  refine ⟨by cases h <;> rfl, by cases h <;> rfl, ?_, ?_, ?_, by cases h <;> rfl⟩
  · intro hs
    rw [hs]
    cases h <;> rfl
  · rw [List.all_append, hin, exportClick_elements, Bool.and_eq_true]
    refine ⟨by decide, ?_⟩
    rw [List.all_eq_true]
    intro el hel
    obtain ⟨el0, _, rfl⟩ := List.mem_map.mp hel
    rw [exportClick_shown]
    rfl
  · intro hall
    rw [List.all_eq_true] at hall
    unfold ExportPage.anyHidden
    rw [List.any_append, hin, exportClick_elements, Bool.or_eq_false_iff]
    refine ⟨by decide, ?_⟩
    rw [← Bool.not_eq_true, List.any_eq_true]
    rintro ⟨el, hel, hmark⟩
    obtain ⟨el0, hel0, rfl⟩ := List.mem_map.mp hel
    cases hm : matchesExportSelector el0
    · have h0 := hall el0 hel0
      rw [hideOnExportElement_of_not_matches true el0 hm,
        hideOnExportElement_of_not_matches false el0 hm] at hmark
      simp [hm, hmark] at h0
    · rw [hideOnExportElement_false_marker _
        (by rw [matchesExportSelector_hideOnExportElement]; exact hm)] at hmark
      cases hmark

/-- Witness for C4 (amended): html2pdf throws on a page whose control has the
markup of line 176 and where a button and the navigation are marked. -/
theorem exportClick_spec_witness :
    (exportClick ⟨false, exportLabel, [["fa", "fa-file-pdf"]],
        [["btn", "hide-on-export"], ["cv-nav"], ["card"]], []⟩ Html2pdf.throws).innerHTML
      = exportLabel ∧
    (exportClick ⟨false, exportLabel, [["fa", "fa-file-pdf"]],
        [["btn", "hide-on-export"], ["cv-nav"], ["card"]], []⟩ Html2pdf.throws).anyHidden
      = false :=
  ⟨(exportClick_spec ⟨false, exportLabel, [["fa", "fa-file-pdf"]],
      [["btn", "hide-on-export"], ["cv-nav"], ["card"]], []⟩ Html2pdf.throws).2.2.1 rfl,
   (exportClick_spec ⟨false, exportLabel, [["fa", "fa-file-pdf"]],
      [["btn", "hide-on-export"], ["cv-nav"], ["card"]], []⟩ Html2pdf.throws).2.2.2.2.1
      (by decide)⟩

end CvScript
